import Mathlib

/-!
# Chat client: compose box (`ChatArea.jsx`) and status display (`Header.jsx`)

A shallow embedding of the two React components.

* JavaScript strings are Lean `String`s (sequences of code points, so a string with an
  unpaired surrogate has no counterpart); `String.prototype.trim` is `ChatArea.trim`.
* A component's `useState` cells are the fields of a state record; an event handler is a
  function from the state read at the event to the next state together with the ordered
  list of calls it makes on its collaborators (the `onSendMessage` prop and the
  `SpeechRecognition` object).
* A `useEffect` body is a function on the state record, run with the value of its
  dependency.
* An `async` function that awaits one promise is a function of how that promise settled.
-/

namespace ChatArea

/-! ## Strings -/

/-- Code points that `String.prototype.trim` strips: ECMAScript WhiteSpace (TAB, VT, FF,
SP, NBSP, ZWNBSP and the Unicode space separators) and LineTerminator (LF, CR, LS, PS). -/
def isTrimChar (c : Char) : Bool :=
  let n := c.toNat
  n == 0x0009 || n == 0x000A || n == 0x000B || n == 0x000C || n == 0x000D ||
  n == 0x0020 || n == 0x00A0 || n == 0x1680 || (0x2000 ≤ n && n ≤ 0x200A) ||
  n == 0x2028 || n == 0x2029 || n == 0x202F || n == 0x205F || n == 0x3000 || n == 0xFEFF

/-- Leading trim characters removed. -/
def trimStart (cs : List Char) : List Char :=
  cs.dropWhile isTrimChar

/-- Trailing trim characters removed. -/
def trimEnd (cs : List Char) : List Char :=
  (cs.reverse.dropWhile isTrimChar).reverse

/-- The method `String.prototype.trim`. -/
def trim (s : String) : String :=
  String.mk (trimEnd (trimStart s.data))

/-- JavaScript truthiness of a string value: every string but the empty one. -/
def truthy (s : String) : Bool :=
  !s.data.isEmpty

/-! ## State, props and collaborator calls -/

/-- The two `useState` cells of `ChatArea`. -/
structure State where
  input : String
  isListening : Bool
  deriving DecidableEq, Repr

/-- Initial values: `useState('')` and `useState(false)`. -/
def State.initial : State :=
  { input := "", isListening := false }

/-- Calls a handler makes outside the component, in program order. -/
inductive Call where
  | preventDefault
  | onSendMessage (text : String)
  | stopListening
  | resetTranscript
  | startListening (continuous : Bool)
  deriving DecidableEq, Repr

/-! ## Effects -/

/-- Body of `useEffect(() => { if (transcript) setInput(transcript) }, [transcript])`. -/
def transcriptEffect (transcript : String) (s : State) : State :=
  if truthy transcript then { s with input := transcript } else s

/-- Body of `useEffect(() => { setIsListening(listening) }, [listening])`. -/
def listeningEffect (listening : Bool) (s : State) : State :=
  { s with isListening := listening }

/-- The transcript effect run once for each transcript value delivered, oldest first. -/
def deliverTranscripts (updates : List String) (s : State) : State :=
  updates.foldl (fun acc t => transcriptEffect t acc) s

/-! ## Handlers -/

/-- The handler `toggleListening`. -/
def toggleListening (s : State) : State × List Call :=
  if s.isListening then
    (s, [Call.stopListening, Call.resetTranscript])
  else
    (s, [Call.startListening true])

/-- The guard of `handleSubmit`: `input.trim() && !isLoading`. -/
def canSubmit (isLoading : Bool) (s : State) : Bool :=
  truthy (trim s.input) && !isLoading

/-- The handler `handleSubmit`. -/
def handleSubmit (isLoading : Bool) (s : State) : State × List Call :=
  if canSubmit isLoading s then
    ({ s with input := "" },
      [Call.preventDefault, Call.onSendMessage s.input] ++
        (if s.isListening then [Call.stopListening, Call.resetTranscript] else []))
  else
    (s, [Call.preventDefault])

/-- The handler `onChange` of the text input: `setInput(e.target.value)`. -/
def onChange (value : String) (s : State) : State :=
  { s with input := value }

/-- The attribute `disabled={!input.trim() || isLoading}` of the submit button. -/
def submitDisabled (isLoading : Bool) (s : State) : Bool :=
  !truthy (trim s.input) || isLoading

/-- Arguments of the `onSendMessage` calls in a call list, in order. -/
def sentTexts : List Call → List String
  | [] => []
  | Call.onSendMessage t :: rest => t :: sentTexts rest
  | _ :: rest => sentTexts rest

/-- Number of `startListening` calls in a call list. -/
def startCount (calls : List Call) : Nat :=
  calls.countP (fun c => match c with | Call.startListening _ => true | _ => false)

/-! ## The speech engine and the component wired to it -/

/-- Modelled from the spec: the speech-capture capability behind `useSpeechRecognition`
and `SpeechRecognition` (the external library `react-speech-recognition`). It publishes
the buffered `transcript` and the `listening` flag; `start` opens the capture session,
`stop` closes it and `reset` clears the buffered transcript. -/
structure Speech where
  transcript : String
  listening : Bool
  deriving DecidableEq, Repr

/-- Modelled from the spec: the engine before any session was opened. -/
def Speech.initial : Speech :=
  { transcript := "", listening := false }

/-- Modelled from the spec: what one collaborator call does to the engine. -/
def Speech.apply (e : Speech) : Call → Speech
  | Call.stopListening => { e with listening := false }
  | Call.resetTranscript => { e with transcript := "" }
  | Call.startListening _ => { e with listening := true }
  | Call.preventDefault => e
  | Call.onSendMessage _ => e

/-- The engine after a handler's calls, in program order. -/
def Speech.applyAll (e : Speech) (calls : List Call) : Speech :=
  calls.foldl Speech.apply e

/-- A mounted `ChatArea` in a browser with speech support: its state cells, the engine
it reads through the hook, and the texts handed to `onSendMessage` so far. -/
structure World where
  state : State
  speech : Speech
  sent : List String
  deriving DecidableEq, Repr

/-- The component right after mount: both effects have run once with `transcript = ''`
and `listening = false`, which leaves the initial state cells as they are. -/
def World.initial : World :=
  { state := listeningEffect Speech.initial.listening
      (transcriptEffect Speech.initial.transcript State.initial),
    speech := Speech.initial,
    sent := [] }

/-- The render after the hook values moved from `old` to `w.speech`: an effect runs when
the value in its dependency array changed. -/
def runEffects (old : Speech) (w : World) : World :=
  let s1 :=
    if w.speech.transcript = old.transcript then w.state
    else transcriptEffect w.speech.transcript w.state
  let s2 :=
    if w.speech.listening = old.listening then s1
    else listeningEffect w.speech.listening s1
  { w with state := s2 }

/-- Things that happen to a mounted `ChatArea`. -/
inductive Event where
  | typed (value : String)
  | micClicked
  | submitted (isLoading : Bool)
  | heard (transcript : String)
  | sessionEnded
  deriving DecidableEq, Repr

/-- A handler's result applied to the world, followed by the effects of the next render. -/
def World.afterHandler (w : World) (r : State × List Call) : World :=
  runEffects w.speech
    { state := r.1, speech := w.speech.applyAll r.2, sent := w.sent ++ sentTexts r.2 }

/-- One event. `heard` is the hook handing the component a new `transcript` value: the
component rerenders and its transcript effect runs whether or not a session is open, the
effect having no test of `listening`, so a result the engine still delivers after
`stopListening` is an event like any other. `sessionEnded` is the engine closing the
session by itself. -/
def World.step (w : World) : Event → World
  | Event.typed v => { w with state := onChange v w.state }
  | Event.micClicked => w.afterHandler (toggleListening w.state)
  | Event.submitted l => w.afterHandler (handleSubmit l w.state)
  | Event.heard t =>
      runEffects w.speech { w with speech := { w.speech with transcript := t } }
  | Event.sessionEnded =>
      runEffects w.speech { w with speech := { w.speech with listening := false } }

/-- The world after a sequence of events, oldest first. -/
def World.run (w : World) (evs : List Event) : World :=
  evs.foldl World.step w

/-- Whether the event is the engine publishing a transcript. -/
def Event.isHeard : Event → Bool
  | Event.heard _ => true
  | _ => false

/-- Whether the event is a keystroke in the text input. -/
def Event.isTyped : Event → Bool
  | Event.typed _ => true
  | _ => false

/-- The flag `isListening` mirrors the engine. -/
def World.synced (w : World) : Prop :=
  w.state.isListening = w.speech.listening

/-! ## Render result -/

/-- The field `role` of a message. -/
inductive Role where
  | user
  | assistant
  deriving DecidableEq, Repr

/-- A message of the `messages` prop. -/
structure Message where
  role : Role
  content : String
  timestamp : Int
  deriving DecidableEq, Repr

/-- The `<form onSubmit={handleSubmit}>` of the compose box, styling left out. -/
structure ComposeForm where
  inputValue : String
  inputDisabled : Bool
  micTitle : String
  submitDisabled : Bool
  deriving DecidableEq, Repr

/-- What `ChatArea` returns, styling left out. -/
inductive View where
  | notice (text : String)
  | chat (messages : List Message) (typingIndicator : Bool) (form : ComposeForm)
  deriving DecidableEq, Repr

/-- The return value of `ChatArea`: the fallback `<span>` when the hook reports
`browserSupportsSpeechRecognition = false`, the message list and form otherwise. -/
def render (browserSupportsSpeechRecognition : Bool) (messages : List Message)
    (isLoading : Bool) (s : State) : View :=
  if !browserSupportsSpeechRecognition then
    View.notice "Browser doesn\x27t support speech recognition."
  else
    View.chat messages isLoading
      { inputValue := s.input,
        inputDisabled := isLoading,
        micTitle := if s.isListening then "Stop listening" else "Start voice input",
        submitDisabled := submitDisabled isLoading s }

/-- Whether the render result holds the text `<input>`. -/
def View.hasTextInput : View → Bool
  | View.notice _ => false
  | View.chat _ _ _ => true

/-- Whether the render result holds the `<form>` with its submit button. -/
def View.hasSubmitForm : View → Bool
  | View.notice _ => false
  | View.chat _ _ _ => true

/-- Whether the render result holds the microphone button. -/
def View.hasVoiceToggle : View → Bool
  | View.notice _ => false
  | View.chat _ _ _ => true

/-- The form of a render result, when it has one. -/
def View.form? : View → Option ComposeForm
  | View.notice _ => none
  | View.chat _ _ f => some f

end ChatArea

namespace Header

/-! ## JavaScript values read from the probe result -/

/-- A JavaScript value as far as `checkStatus` looks at it: it is compared with the string
`'running'`, tested for truthiness, or stored. Numbers are the integers and `NaN`; any
object (array, function) is `object`. -/
inductive JSVal where
  | undefined
  | null
  | bool (b : Bool)
  | num (n : Int)
  | nan
  | str (s : String)
  | object
  deriving DecidableEq, Repr

/-- JavaScript truthiness (`ToBoolean`). -/
def JSVal.truthy : JSVal → Bool
  | JSVal.undefined => false
  | JSVal.null => false
  | JSVal.bool b => b
  | JSVal.num n => n != 0
  | JSVal.nan => false
  | JSVal.str s => !s.data.isEmpty
  | JSVal.object => true

/-- The operator `a || b`. -/
def JSVal.or (a b : JSVal) : JSVal :=
  if a.truthy then a else b

/-- The four properties `checkStatus` reads from a resolved value that is not `null` or
`undefined`; reading a property the value does not have gives `undefined`. -/
structure StatusResult where
  status : JSVal
  rag_agent_ready : JSVal
  documents_loaded : JSVal
  pdfs_directory : JSVal
  deriving DecidableEq, Repr

/-- An object with none of the four properties, such as `{}`. -/
def StatusResult.empty : StatusResult :=
  { status := JSVal.undefined, rag_agent_ready := JSVal.undefined,
    documents_loaded := JSVal.undefined, pdfs_directory := JSVal.undefined }

/-- How the promise returned by `getStatus()` settles: it rejects, or it resolves with
`null` or `undefined` (`nullish`), or it resolves with a value whose properties can be
read. -/
inductive ProbeOutcome where
  | rejected
  | nullish
  | resolved (result : StatusResult)
  deriving DecidableEq, Repr

/-! ## The status snapshot -/

/-- The `status` state cell of `Header`. -/
structure Status where
  serverStatus : String
  ragAgentStatus : JSVal
  documentsLoaded : JSVal
  pdfsDirectory : JSVal
  deriving DecidableEq, Repr

/-- The argument of `useState` for `status`. -/
def Status.initial : Status :=
  { serverStatus := "Checking...", ragAgentStatus := JSVal.bool false,
    documentsLoaded := JSVal.num 0, pdfsDirectory := JSVal.str "" }

/-- The object literal passed to `setStatus` in the `try` block. -/
def tryBranch (result : StatusResult) : Status :=
  { serverStatus := if result.status = JSVal.str "running" then "Online" else "Offline",
    ragAgentStatus := result.rag_agent_ready,
    documentsLoaded := result.documents_loaded.or (JSVal.num 0),
    pdfsDirectory := result.pdfs_directory.or (JSVal.str "") }

/-- The updater passed to `setStatus` in the `catch` block. -/
def catchBranch (prev : Status) : Status :=
  { prev with serverStatus := "Offline", ragAgentStatus := JSVal.bool false }

/-- The function `checkStatus` from the point where `await getStatus()` settles: a
rejection is thrown into `catch`; so is the `TypeError` of `result.status` on `null` or
`undefined`; any other resolved value goes through the `try` block to its end. -/
def checkStatus (outcome : ProbeOutcome) (prev : Status) : Status :=
  match outcome with
  | ProbeOutcome.rejected => catchBranch prev
  | ProbeOutcome.nullish => catchBranch prev
  | ProbeOutcome.resolved result => tryBranch result

/-- The three pieces of text the header shows for a snapshot: `{status.serverStatus}`,
the word after `RAG Agent`, and the value in front of `documents loaded`. -/
structure Display where
  server : String
  agent : String
  documents : JSVal
  deriving DecidableEq, Repr

/-- The status line of the render result. -/
def display (s : Status) : Display :=
  { server := s.serverStatus,
    agent := if s.ragAgentStatus.truthy then "Ready" else "Not Ready",
    documents := s.documentsLoaded }

/-- Snapshots after each of a sequence of probes that settle one after the other, in the
order given. -/
def snapshots (prev : Status) : List ProbeOutcome → List Status
  | [] => []
  | o :: rest => checkStatus o prev :: snapshots (checkStatus o prev) rest

/-- The snapshot after a sequence of probes that settle one after the other. -/
def lastSnapshot (prev : Status) (outcomes : List ProbeOutcome) : Status :=
  outcomes.foldl (fun s o => checkStatus o s) prev

/-! ## Overlapping probes -/

/-- The polling effect in flight: the snapshot, and how many times `checkStatus` has been
called (once on mount, once per interval tick). The count is bookkeeping of the model;
the component keeps no such number. -/
structure Poller where
  status : Status
  started : Nat
  deriving DecidableEq, Repr

/-- The effect right after mount, before its first call of `checkStatus`. -/
def Poller.initial : Poller :=
  { status := Status.initial, started := 0 }

/-- What happens to the polling effect: `checkStatus` is called and awaits a new probe, or
the probe started by the call numbered `probe` (from 0) settles. -/
inductive PollEvent where
  | start
  | settle (probe : Nat) (outcome : ProbeOutcome)
  deriving DecidableEq, Repr

/-- One event of the polling effect. A settling probe resumes its `checkStatus` call, which
sets the state without looking at which call it is. -/
def Poller.step (p : Poller) : PollEvent → Poller
  | PollEvent.start => { p with started := p.started + 1 }
  | PollEvent.settle _ outcome => { p with status := checkStatus outcome p.status }

/-- The polling effect after a sequence of events, oldest first. -/
def Poller.run (p : Poller) (evs : List PollEvent) : Poller :=
  evs.foldl Poller.step p

end Header

namespace ChatArea

theorem truthy_iff_ne_empty (t : String) : truthy t = true ↔ t ≠ "" := by
  cases t with
  | mk l =>
    cases l with
    | nil => simp [truthy]
    | cons c cs =>
      simp [truthy]
      intro h
      have := congrArg String.data h
      simp at this

theorem dropWhile_all_iff (p : Char → Bool) (l : List Char) :
    (∀ c ∈ l.dropWhile p, p c = true) ↔ ∀ c ∈ l, p c = true := by
  induction l with
  | nil => simp
  | cons a l ih =>
    by_cases ha : p a = true
    · simp [List.dropWhile_cons, ha, ih]
    · simp [List.dropWhile_cons, ha]

theorem trim_ne_empty_iff (s : String) :
    trim s ≠ "" ↔ ∃ c ∈ s.data, isTrimChar c = false := by
  have h1 : trim s ≠ "" ↔ trimEnd (trimStart s.data) ≠ [] := by
    rw [← truthy_iff_ne_empty]
    simp [truthy, trim]
  rw [h1]
  have h2 : trimEnd (trimStart s.data) = [] ↔ ∀ c ∈ s.data, isTrimChar c = true := by
    unfold trimEnd trimStart
    rw [List.reverse_eq_nil_iff, List.dropWhile_eq_nil_iff]
    simp only [List.mem_reverse]
    exact dropWhile_all_iff _ _
  rw [Ne, h2]
  simp

theorem canSubmit_iff (isLoading : Bool) (s : State) :
    canSubmit isLoading s = true ↔ (trim s.input ≠ "" ∧ isLoading = false) := by
  simp [canSubmit, truthy_iff_ne_empty]

/-- C1: `handleSubmit` calls `onSendMessage` exactly once when the trimmed draft is
non-empty and `isLoading` is false, and not at all otherwise; the submit button is enabled
under the same condition. A trimmed draft is non-empty exactly when the draft holds a
character that is not white space. -/
theorem handleSubmit_sends_once_iff_guard (isLoading : Bool) (s : State) :
    (sentTexts (handleSubmit isLoading s).2).length =
        (if trim s.input ≠ "" ∧ isLoading = false then 1 else 0) ∧
      ((submitDisabled isLoading s = false) ↔ (trim s.input ≠ "" ∧ isLoading = false)) ∧
      (trim s.input ≠ "" ↔ ∃ c ∈ s.input.data, isTrimChar c = false) := by
  refine ⟨?_, ?_, trim_ne_empty_iff _⟩
  · by_cases h : canSubmit isLoading s = true
    · have h2 := (canSubmit_iff isLoading s).1 h
      rw [if_pos h2]
      cases hl : s.isListening <;> simp [handleSubmit, h, hl, sentTexts]
    · have h2 : ¬ (trim s.input ≠ "" ∧ isLoading = false) :=
        fun hc => h ((canSubmit_iff isLoading s).2 hc)
      rw [if_neg h2]
      simp [handleSubmit, h, sentTexts]
  · rw [← canSubmit_iff]
    cases h1 : truthy (trim s.input) <;> cases isLoading <;>
      simp [submitDisabled, canSubmit, h1]

/-- C2, as the code has it: with a draft of two blanks, `Hello`, two blanks and nothing
pending, the text handed to `onSendMessage` is not the trimmed draft `Hello`. -/
theorem handleSubmit_sends_untrimmed_example :
    trim "  Hello  " = "Hello" ∧
      sentTexts (handleSubmit false { input := "  Hello  ", isListening := false }).2
        ≠ ["Hello"] := by
  decide

/-- C2, amended: when the trimmed draft is non-empty and nothing is pending, the one
argument `handleSubmit` passes to `onSendMessage` is the draft itself, with its leading
and trailing white space still in place. -/
theorem handleSubmit_sends_draft_verbatim (s : State)
    (h : trim s.input ≠ "") :
    sentTexts (handleSubmit false s).2 = [s.input] := by
  have hc : canSubmit false s = true := (canSubmit_iff false s).2 ⟨h, rfl⟩
  cases hl : s.isListening <;> simp [handleSubmit, hc, hl, sentTexts]

/-- Witness for C2, amended, at the draft of two blanks, `Hello`, two blanks. -/
theorem handleSubmit_sends_draft_verbatim_witness :
    trim "  Hello  " ≠ "" ∧
      sentTexts (handleSubmit false { input := "  Hello  ", isListening := true }).2
        = ["  Hello  "] :=
  ⟨by decide, handleSubmit_sends_draft_verbatim _ (by decide)⟩

theorem transcriptEffect_empty (s : State) : transcriptEffect "" s = s := by
  simp [transcriptEffect, truthy]

theorem runEffects_speech (old : Speech) (w : World) : (runEffects old w).speech = w.speech :=
  rfl

theorem runEffects_input_of_empty (old : Speech) (w : World)
    (ht : w.speech.transcript = "") : (runEffects old w).state.input = w.state.input := by
  obtain ⟨⟨input, isL⟩, ⟨tr, li⟩, sent⟩ := w
  simp only at ht
  subst ht
  unfold runEffects
  by_cases h1 : "" = old.transcript <;> by_cases h2 : li = old.listening <;>
    simp [h1, h2, listeningEffect, transcriptEffect_empty]

theorem handler_transcript_empty (e : Speech) (isLoading : Bool) (s : State)
    (ht : e.transcript = "") :
    (e.applyAll (toggleListening s).2).transcript = "" ∧
      (e.applyAll (handleSubmit isLoading s).2).transcript = "" := by
  constructor
  · cases hl : s.isListening <;>
      simp [toggleListening, hl, Speech.applyAll, Speech.apply, ht]
  · by_cases hc : canSubmit isLoading s = true
    · cases hl : s.isListening <;>
        simp [handleSubmit, hc, hl, Speech.applyAll, Speech.apply, ht]
    · simp [handleSubmit, hc, Speech.applyAll, Speech.apply, ht]

theorem quiet_step_transcript (w : World) (ev : Event) (hq : ev.isHeard = false)
    (ht : w.speech.transcript = "") : (w.step ev).speech.transcript = "" := by
  cases ev with
  | typed v => exact ht
  | micClicked => exact (handler_transcript_empty w.speech false w.state ht).1
  | submitted l => exact (handler_transcript_empty w.speech l w.state ht).2
  | heard t => simp [Event.isHeard] at hq
  | sessionEnded => exact ht

theorem quiet_step_input (w : World) (ev : Event) (hq : ev.isHeard = false)
    (hk : ev.isTyped = false) (ht : w.speech.transcript = "") (hi : w.state.input = "") :
    (w.step ev).state.input = "" := by
  cases ev with
  | typed v => simp [Event.isTyped] at hk
  | micClicked =>
    show (runEffects _ _).state.input = ""
    rw [runEffects_input_of_empty _ _ (handler_transcript_empty w.speech false w.state ht).1]
    cases hl : w.state.isListening <;> simp [toggleListening, hl, hi]
  | submitted l =>
    show (runEffects _ _).state.input = ""
    rw [runEffects_input_of_empty _ _ (handler_transcript_empty w.speech l w.state ht).2]
    by_cases hc : canSubmit l w.state = true <;> simp [handleSubmit, hc, hi]
  | heard t => simp [Event.isHeard] at hq
  | sessionEnded =>
    exact (runEffects_input_of_empty w.speech
      { w with speech := { w.speech with listening := false } } ht).trans hi

theorem quiet_run_transcript (evs : List Event) (w : World)
    (hq : ∀ ev ∈ evs, ev.isHeard = false) (ht : w.speech.transcript = "") :
    (w.run evs).speech.transcript = "" := by
  induction evs generalizing w with
  | nil => exact ht
  | cons ev rest ih =>
    exact ih (w.step ev) (fun e he => hq e (List.mem_cons_of_mem _ he))
      (quiet_step_transcript w ev (hq ev (List.mem_cons_self _ _)) ht)

theorem quiet_run_input (evs : List Event) (w : World)
    (hq : ∀ ev ∈ evs, ev.isHeard = false) (hk : ∀ ev ∈ evs, ev.isTyped = false)
    (ht : w.speech.transcript = "") (hi : w.state.input = "") :
    (w.run evs).state.input = "" := by
  induction evs generalizing w with
  | nil => exact hi
  | cons ev rest ih =>
    exact ih (w.step ev) (fun e he => hq e (List.mem_cons_of_mem _ he))
      (fun e he => hk e (List.mem_cons_of_mem _ he))
      (quiet_step_transcript w ev (hq ev (List.mem_cons_self _ _)) ht)
      (quiet_step_input w ev (hq ev (List.mem_cons_self _ _)) (hk ev (List.mem_cons_self _ _))
        ht hi)

theorem submitted_world (w : World) (isLoading : Bool)
    (hc : canSubmit isLoading w.state = true) (hl : w.state.isListening = true) :
    (w.step (Event.submitted isLoading)).state.input = "" ∧
      (w.step (Event.submitted isLoading)).speech = { transcript := "", listening := false } := by
  obtain ⟨⟨input, isL⟩, ⟨tr, li⟩, sent⟩ := w
  simp only at hc hl
  subst hl
  constructor
  · cases li <;>
      simp [World.step, World.afterHandler, runEffects, handleSubmit, hc, Speech.applyAll,
        Speech.apply, listeningEffect, transcriptEffect_empty]
  · simp [World.step, World.afterHandler, runEffects, handleSubmit, hc, Speech.applyAll,
      Speech.apply]

/-- C3, as the code has it: a session is opened, `hi` is dictated and submitted with the
session still open. The handler empties the draft, stops the session and resets the
transcript. The engine then delivers `hi` once more, the result it was still working on
when it was stopped; the transcript effect, which does not look at `listening`, puts it
back in the draft, and the next click on the microphone opens a session whose transcript
is `hi`, not the empty string. -/
theorem handleSubmit_late_transcript_survives_restart :
    canSubmit false (World.initial.run [Event.micClicked, Event.heard "hi"]).state = true ∧
      (World.initial.run [Event.micClicked, Event.heard "hi"]).state.isListening = true ∧
      (World.initial.run
          [Event.micClicked, Event.heard "hi", Event.submitted false]).state.input = "" ∧
      (World.initial.run
          [Event.micClicked, Event.heard "hi", Event.submitted false]).speech
        = { transcript := "", listening := false } ∧
      (World.initial.run
          [Event.micClicked, Event.heard "hi", Event.submitted false,
            Event.heard "hi", Event.micClicked]).speech
        = { transcript := "hi", listening := true } ∧
      (World.initial.run
          [Event.micClicked, Event.heard "hi", Event.submitted false,
            Event.heard "hi", Event.micClicked]).state.input = "hi" := by
  decide

/-- C3, amended: when the guard of `handleSubmit` passes, the draft is empty when the
handler returns and after the effects of the next render. If `isListening` was set, the
handler has called `stopListening` and `resetTranscript`, so the engine is closed and its
transcript empty at that point; over every sequence of later events in which the engine
publishes no transcript, the transcript stays empty, so a restart by the microphone button
after them starts from an empty transcript, and the draft stays empty as well when nothing
is typed. With the flag mirroring the engine, the next click does open a session. -/
theorem handleSubmit_clears_until_next_transcript (w : World) (isLoading : Bool)
    (evs : List Event)
    (hguard : trim w.state.input ≠ "" ∧ isLoading = false)
    (hquiet : ∀ ev ∈ evs, ev.isHeard = false) :
    (handleSubmit isLoading w.state).1.input = "" ∧
      (w.step (Event.submitted isLoading)).state.input = "" ∧
      (w.state.isListening = true →
        (handleSubmit isLoading w.state).2 =
            [Call.preventDefault, Call.onSendMessage w.state.input,
              Call.stopListening, Call.resetTranscript] ∧
          (w.step (Event.submitted isLoading)).speech =
            { transcript := "", listening := false } ∧
          ((w.step (Event.submitted isLoading)).run evs).speech.transcript = "" ∧
          (((w.step (Event.submitted isLoading)).run evs).step
            Event.micClicked).speech.transcript = "" ∧
          ((∀ ev ∈ evs, ev.isTyped = false) →
            ((w.step (Event.submitted isLoading)).run evs).state.input = "" ∧
              (((w.step (Event.submitted isLoading)).run evs).step
                Event.micClicked).state.input = "") ∧
          (w.speech.listening = true →
            (w.step (Event.submitted isLoading)).state.isListening = false ∧
              ((w.step (Event.submitted isLoading)).step Event.micClicked).speech =
                { transcript := "", listening := true } ∧
              ((w.step (Event.submitted isLoading)).step Event.micClicked).state.input
                = "")) := by
  have hc : canSubmit isLoading w.state = true := (canSubmit_iff isLoading w.state).2 hguard
  refine ⟨by simp [handleSubmit, hc], ?_, ?_⟩
  · obtain ⟨⟨input, isL⟩, ⟨tr, li⟩, sent⟩ := w
    simp only at hc
    cases isL <;> cases li <;>
      simp [World.step, World.afterHandler, runEffects, handleSubmit, hc, Speech.applyAll,
        Speech.apply, listeningEffect, transcriptEffect_empty]
  · intro hl
    have hw := submitted_world w isLoading hc hl
    have ht : (w.step (Event.submitted isLoading)).speech.transcript = "" := by
      rw [hw.2]
    have hrun := quiet_run_transcript evs _ hquiet ht
    refine ⟨by simp [handleSubmit, hc, hl], hw.2, hrun, ?_, ?_, ?_⟩
    · exact quiet_step_transcript _ Event.micClicked rfl hrun
    · intro hk
      have hin := quiet_run_input evs _ hquiet hk ht hw.1
      exact ⟨hin, quiet_step_input _ Event.micClicked rfl rfl hrun hin⟩
    · intro hli
      obtain ⟨⟨input, isL⟩, ⟨tr, li⟩, sent⟩ := w
      simp only at hc hl hli
      subst hl
      subst hli
      by_cases htr : tr = "" <;>
        simp [World.step, World.afterHandler, runEffects, handleSubmit, hc, Speech.applyAll,
          Speech.apply, listeningEffect, transcriptEffect_empty, toggleListening, htr,
          sentTexts]

/-- Witness for C3, amended: `hi` is dictated into an open session and submitted; then
the session ends, a letter is typed and the microphone is clicked twice. -/
theorem handleSubmit_clears_until_next_transcript_witness :
    (trim (World.initial.run [Event.micClicked, Event.heard "hi"]).state.input ≠ "" ∧
        false = false) ∧
      (∀ ev ∈ [Event.sessionEnded, Event.typed "a", Event.micClicked],
        ev.isHeard = false) ∧
      (handleSubmit false
        (World.initial.run [Event.micClicked, Event.heard "hi"]).state).1.input = "" ∧
      ((World.initial.run [Event.micClicked, Event.heard "hi"]).step
          (Event.submitted false)).speech
        = { transcript := "", listening := false } ∧
      ((((World.initial.run [Event.micClicked, Event.heard "hi"]).step
          (Event.submitted false)).run
            [Event.sessionEnded, Event.typed "a", Event.micClicked]).step
              Event.micClicked).speech.transcript = "" :=
  have h := handleSubmit_clears_until_next_transcript
    (World.initial.run [Event.micClicked, Event.heard "hi"]) false
    [Event.sessionEnded, Event.typed "a", Event.micClicked]
    ⟨by decide, rfl⟩ (by decide)
  ⟨⟨by decide, rfl⟩, by decide, h.1, (h.2.2 (by decide)).2.1, (h.2.2 (by decide)).2.2.2.1⟩

theorem deliverTranscripts_append (xs ys : List String) (s : State) :
    deliverTranscripts (xs ++ ys) s = deliverTranscripts ys (deliverTranscripts xs s) := by
  simp [deliverTranscripts, List.foldl_append]

theorem deliverTranscripts_input (updates : List String) (s : State) :
    (deliverTranscripts updates s).input =
      ((updates.filter truthy).getLast?).getD s.input := by
  induction updates using List.reverseRecOn with
  | nil => simp [deliverTranscripts]
  | append_singleton xs t ih =>
    rw [deliverTranscripts_append]
    cases ht : truthy t
    · simp [deliverTranscripts, transcriptEffect, ht, List.filter_append]
      simpa [deliverTranscripts] using ih
    · simp [deliverTranscripts, transcriptEffect, ht, List.filter_append]

/-- C4, as the code has it: from the draft `abc`, the transcript updates `hello` and then
the empty string leave the draft at `hello`, not at the most recent value, the empty
string. -/
theorem transcript_empty_update_keeps_draft :
    (deliverTranscripts ["hello", ""] { input := "abc", isListening := true }).input
        = "hello" ∧
      (deliverTranscripts ["hello", ""] { input := "abc", isListening := true }).input
        ≠ (["hello", ""].getLast?).getD "abc" := by
  decide

/-- C4, amended: after the transcript effect has run for each update, the draft is the
most recent non-empty transcript value (the draft it started from when every update was
empty), never a concatenation; an empty transcript leaves the draft as it is, and a
non-empty one replaces it whole. -/
theorem transcript_updates_last_nonempty_wins (updates : List String) (s : State) :
    (deliverTranscripts updates s).input =
        ((updates.filter (fun t => decide (t ≠ ""))).getLast?).getD s.input ∧
      (deliverTranscripts (updates ++ [""]) s).input = (deliverTranscripts updates s).input ∧
      (∀ t : String, t ≠ "" → (deliverTranscripts (updates ++ [t]) s).input = t) := by
  have hf : (fun t : String => decide (t ≠ "")) = truthy := by
    funext t
    cases h : truthy t
    · have : ¬ (t ≠ "") := fun hc => by
        have := (truthy_iff_ne_empty t).2 hc
        simp [h] at this
      simpa using this
    · simpa using (truthy_iff_ne_empty t).1 h
  refine ⟨by rw [hf]; exact deliverTranscripts_input updates s, ?_, ?_⟩
  · rw [deliverTranscripts_append]
    simp [deliverTranscripts, transcriptEffect_empty]
  · intro t ht
    rw [deliverTranscripts_append]
    have := (truthy_iff_ne_empty t).2 ht
    simp [deliverTranscripts, transcriptEffect, this]

/-- Witness for C4, amended: four updates, the second one empty. -/
theorem transcript_updates_last_nonempty_wins_witness :
    (deliverTranscripts (["he", "", "hello"] ++ ["hello world"])
        { input := "abc", isListening := true }).input = "hello world" :=
  (transcript_updates_last_nonempty_wins ["he", "", "hello"]
    { input := "abc", isListening := true }).2.2 "hello world" (by decide)

/-- C9, as the code has it: without speech support the render result holds neither the
text input nor the submit form. -/
theorem render_unsupported_has_no_form :
    (render false [] false { input := "Hello", isListening := false }).hasTextInput = false ∧
      (render false [] false { input := "Hello", isListening := false }).hasSubmitForm
        = false := by
  decide

/-- C9, amended: when `browserSupportsSpeechRecognition` is false, for every messages
list, draft and pending flag the render result is only the notice that the browser does
not support speech recognition: no text input, no submit form and no voice toggle. With
support reported, the result holds all three, the input showing the draft and the submit
button disabled exactly when the trimmed draft is empty or a response is pending. -/
theorem render_unsupported_is_notice (messages : List Message) (isLoading : Bool)
    (s : State) :
    render false messages isLoading s
        = View.notice "Browser doesn\x27t support speech recognition." ∧
      (render false messages isLoading s).hasTextInput = false ∧
      (render false messages isLoading s).hasSubmitForm = false ∧
      (render false messages isLoading s).hasVoiceToggle = false ∧
      (render false messages isLoading s).form? = none ∧
      (render true messages isLoading s).hasTextInput = true ∧
      (render true messages isLoading s).hasSubmitForm = true ∧
      (render true messages isLoading s).hasVoiceToggle = true ∧
      ((render true messages isLoading s).form?.map (fun f => (f.inputValue, f.submitDisabled))
        = some (s.input, !canSubmit isLoading s)) := by
  refine ⟨rfl, rfl, rfl, rfl, rfl, rfl, rfl, rfl, ?_⟩
  cases h : truthy (trim s.input) <;> cases isLoading <;>
    simp [render, View.form?, submitDisabled, canSubmit, h]

theorem runEffects_synced (old : Speech) (w : World)
    (h : w.state.isListening = old.listening) : (runEffects old w).synced := by
  obtain ⟨⟨input, isL⟩, ⟨tr, li⟩, sent⟩ := w
  simp only at h
  subst h
  unfold World.synced runEffects
  by_cases h1 : tr = old.transcript <;> by_cases h2 : li = old.listening <;>
    simp [h1, h2, listeningEffect, transcriptEffect]
  all_goals split <;> simp_all

theorem step_synced (w : World) (ev : Event) (h : w.synced) : (w.step ev).synced := by
  unfold World.synced at h
  cases ev with
  | typed v => simpa [World.step, World.synced, onChange] using h
  | micClicked =>
    apply runEffects_synced
    cases hl : w.state.isListening <;> simp [toggleListening, hl, ← h]
  | submitted l =>
    apply runEffects_synced
    by_cases hc : canSubmit l w.state = true
    · simp [handleSubmit, hc, ← h]
    · simp [handleSubmit, hc, ← h]
  | heard t =>
    exact runEffects_synced _ _ h
  | sessionEnded => exact runEffects_synced _ _ h

theorem run_synced (evs : List Event) (w : World) (h : w.synced) : (w.run evs).synced := by
  induction evs generalizing w with
  | nil => exact h
  | cons ev rest ih => exact ih (w.step ev) (step_synced w ev h)

/-- C10: `toggleListening` changes no state cell and does one of two things, decided by
`isListening`: with the flag set it calls `stopListening` and then `resetTranscript` and
nothing else; with the flag clear it calls `startListening` once, with `continuous: true`,
and nothing else. In every state the mounted component reaches, the flag mirrors the
engine, so with a session open neither `toggleListening` nor `handleSubmit` calls
`startListening`. -/
theorem toggleListening_stop_or_start (s : State) (evs : List Event) (isLoading : Bool) :
    (toggleListening s).1 = s ∧
      (s.isListening = true →
        (toggleListening s).2 = [Call.stopListening, Call.resetTranscript]) ∧
      (s.isListening = false → (toggleListening s).2 = [Call.startListening true]) ∧
      startCount (toggleListening s).2 = (if s.isListening then 0 else 1) ∧
      ((World.initial.run evs).speech.listening = true →
        startCount (toggleListening (World.initial.run evs).state).2 = 0 ∧
          startCount (handleSubmit isLoading (World.initial.run evs).state).2 = 0 ∧
          ((World.initial.run evs).step Event.micClicked).speech.listening = false) := by
  refine ⟨?_, ?_, ?_, ?_, ?_⟩
  · cases h : s.isListening <;> simp [toggleListening, h]
  · intro h; simp [toggleListening, h]
  · intro h; simp [toggleListening, h]
  · cases h : s.isListening <;> simp [toggleListening, h, startCount]
  · intro hl
    have hs : (World.initial.run evs).state.isListening = (World.initial.run evs).speech.listening :=
      run_synced evs World.initial rfl
    rw [hl] at hs
    refine ⟨by simp [toggleListening, hs, startCount], ?_, ?_⟩
    · by_cases hc : canSubmit isLoading (World.initial.run evs).state = true
      · simp [handleSubmit, hc, hs, startCount]
      · simp [handleSubmit, hc, startCount]
    · simp [World.step, World.afterHandler, runEffects, toggleListening, hs, Speech.applyAll,
        Speech.apply]

/-- Witness for C10: both branches, and the state reached by opening a session and
hearing `hi`. -/
theorem toggleListening_stop_or_start_witness :
    (toggleListening { input := "", isListening := true }).2
        = [Call.stopListening, Call.resetTranscript] ∧
      (toggleListening { input := "", isListening := false }).2
        = [Call.startListening true] ∧
      startCount (toggleListening
        (World.initial.run [Event.micClicked, Event.heard "hi"]).state).2 = 0 :=
  ⟨(toggleListening_stop_or_start { input := "", isListening := true } [] false).2.1 rfl,
    (toggleListening_stop_or_start { input := "", isListening := false } [] false).2.2.1 rfl,
    ((toggleListening_stop_or_start State.initial [Event.micClicked, Event.heard "hi"]
      false).2.2.2.2 (by decide)).1⟩

end ChatArea

namespace Header

theorem snapshots_append (prev : Status) (xs ys : List ProbeOutcome) :
    snapshots prev (xs ++ ys) = snapshots prev xs ++ snapshots (lastSnapshot prev xs) ys := by
  induction xs generalizing prev with
  | nil => simp [snapshots, lastSnapshot]
  | cons o rest ih => simp [snapshots, lastSnapshot, ih]

theorem snapshots_length (prev : Status) (xs : List ProbeOutcome) :
    (snapshots prev xs).length = xs.length := by
  induction xs generalizing prev with
  | nil => simp [snapshots]
  | cons o rest ih => simp [snapshots, ih]

/-- C5: a probe that rejects gives a snapshot shown as `Offline` and `Not Ready`, with
`documentsLoaded` and `pdfsDirectory` as in the previous snapshot; so in every sequence of
probe outcomes the document count shown after a rejection is the one shown just before it,
and the outcomes success (ready, 3), rejection, success (not ready, 3) show
Online/Ready/3, Offline/Not Ready/3, Online/Not Ready/3. -/
theorem checkStatus_rejected_keeps_documents (prev : Status)
    (before after : List ProbeOutcome) :
    (checkStatus ProbeOutcome.rejected prev).serverStatus = "Offline" ∧
      (checkStatus ProbeOutcome.rejected prev).ragAgentStatus = JSVal.bool false ∧
      (display (checkStatus ProbeOutcome.rejected prev)).agent = "Not Ready" ∧
      (checkStatus ProbeOutcome.rejected prev).documentsLoaded = prev.documentsLoaded ∧
      (checkStatus ProbeOutcome.rejected prev).pdfsDirectory = prev.pdfsDirectory ∧
      ((snapshots prev (before ++ ProbeOutcome.rejected :: after))[before.length]?.map
          (fun s => (display s).documents)
        = some (display (lastSnapshot prev before)).documents) ∧
      ((snapshots Status.initial
          [ProbeOutcome.resolved
              { status := JSVal.str "running", rag_agent_ready := JSVal.bool true,
                documents_loaded := JSVal.num 3, pdfs_directory := JSVal.undefined },
            ProbeOutcome.rejected,
            ProbeOutcome.resolved
              { status := JSVal.str "running", rag_agent_ready := JSVal.bool false,
                documents_loaded := JSVal.num 3, pdfs_directory := JSVal.undefined }]).map
          display
        = [{ server := "Online", agent := "Ready", documents := JSVal.num 3 },
            { server := "Offline", agent := "Not Ready", documents := JSVal.num 3 },
            { server := "Online", agent := "Not Ready", documents := JSVal.num 3 }]) := by
  refine ⟨rfl, rfl, rfl, rfl, rfl, ?_, by decide⟩
  rw [snapshots_append, List.getElem?_append_right (by simp [snapshots_length])]
  simp [snapshots_length, snapshots, checkStatus, catchBranch, display]

/-- C6, as the code has it: a probe that resolves with `status: 'starting'`, the agent
ready and 2 documents is shown as `Offline`, not `Online`. -/
theorem checkStatus_resolved_not_running_offline :
    (display (checkStatus
        (ProbeOutcome.resolved
          { status := JSVal.str "starting", rag_agent_ready := JSVal.bool true,
            documents_loaded := JSVal.num 2, pdfs_directory := JSVal.str "pdfs" })
        Status.initial)).server ≠ "Online" := by
  decide

/-- C6, amended: for every probe that resolves with a value whose properties can be read,
and every previous snapshot, the server label is `Online` exactly when the reported
`status` is the string `running` and `Offline` otherwise; agent readiness is the reported
`rag_agent_ready`; the document count is the reported `documents_loaded` (every integer,
0 included), or 0 when it is omitted; and the new snapshot does not depend on the previous
one. -/
theorem checkStatus_resolved_snapshot (result : StatusResult) (prev other : Status)
    (n : Int) :
    ((checkStatus (ProbeOutcome.resolved result) prev).serverStatus = "Online" ↔
        result.status = JSVal.str "running") ∧
      ((checkStatus (ProbeOutcome.resolved result) prev).serverStatus = "Offline" ↔
        result.status ≠ JSVal.str "running") ∧
      (checkStatus (ProbeOutcome.resolved result) prev).ragAgentStatus
        = result.rag_agent_ready ∧
      (checkStatus (ProbeOutcome.resolved { result with documents_loaded := JSVal.num n })
          prev).documentsLoaded = JSVal.num n ∧
      (checkStatus (ProbeOutcome.resolved { result with documents_loaded := JSVal.undefined })
          prev).documentsLoaded = JSVal.num 0 ∧
      checkStatus (ProbeOutcome.resolved result) prev
        = checkStatus (ProbeOutcome.resolved result) other := by
  refine ⟨?_, ?_, rfl, ?_, rfl, rfl⟩
  · by_cases h : result.status = JSVal.str "running" <;> simp [checkStatus, tryBranch, h]
  · by_cases h : result.status = JSVal.str "running" <;> simp [checkStatus, tryBranch, h]
  · by_cases h : n = 0 <;> simp [checkStatus, tryBranch, JSVal.or, JSVal.truthy, h]

/-- C7, as the code has it: after a snapshot with 3 documents, a probe that resolves with
an object that has none of the fields gives a snapshot with 0 documents, which is not the
snapshot of the failure branch. -/
theorem checkStatus_malformed_resets_documents :
    (checkStatus (ProbeOutcome.resolved StatusResult.empty)
        { serverStatus := "Online", ragAgentStatus := JSVal.bool true,
          documentsLoaded := JSVal.num 3, pdfsDirectory := JSVal.str "pdfs" }).documentsLoaded
        = JSVal.num 0 ∧
      checkStatus (ProbeOutcome.resolved StatusResult.empty)
        { serverStatus := "Online", ragAgentStatus := JSVal.bool true,
          documentsLoaded := JSVal.num 3, pdfsDirectory := JSVal.str "pdfs" }
        ≠ checkStatus ProbeOutcome.rejected
          { serverStatus := "Online", ragAgentStatus := JSVal.bool true,
            documentsLoaded := JSVal.num 3, pdfsDirectory := JSVal.str "pdfs" } := by
  decide

/-- C7, amended: a probe that resolves with a malformed value whose properties can be read
is not treated as a failure. For every previous snapshot the new snapshot is built by the
success branch from the resolved value alone and does not depend on the previous one; its
document count is the reported `documents_loaded`, or 0 when that is missing or falsy. For
an object with no `status`, no `rag_agent_ready` and no `documents_loaded` field, whatever
its `pdfs_directory`, the snapshot is shown as `Offline` and `Not Ready` with 0 documents,
and what is shown is what the failure branch would show exactly when the previous count
was already 0. A probe that resolves with `null` or `undefined` gives the snapshot of the
failure branch: `Offline`, not ready, document count and directory unchanged. -/
theorem checkStatus_malformed_snapshot (prev other : Status) (result : StatusResult)
    (pdfs : JSVal) :
    checkStatus (ProbeOutcome.resolved result) prev
        = checkStatus (ProbeOutcome.resolved result) other ∧
      (checkStatus (ProbeOutcome.resolved result) prev).documentsLoaded
        = (if result.documents_loaded.truthy then result.documents_loaded else JSVal.num 0) ∧
      display (checkStatus
          (ProbeOutcome.resolved { StatusResult.empty with pdfs_directory := pdfs }) prev)
        = { server := "Offline", agent := "Not Ready", documents := JSVal.num 0 } ∧
      checkStatus (ProbeOutcome.resolved { StatusResult.empty with pdfs_directory := pdfs })
          prev
        = { serverStatus := "Offline", ragAgentStatus := JSVal.undefined,
            documentsLoaded := JSVal.num 0,
            pdfsDirectory := if pdfs.truthy then pdfs else JSVal.str "" } ∧
      (display (checkStatus
            (ProbeOutcome.resolved { StatusResult.empty with pdfs_directory := pdfs }) prev)
          = display (checkStatus ProbeOutcome.rejected prev)
        ↔ prev.documentsLoaded = JSVal.num 0) ∧
      checkStatus ProbeOutcome.nullish prev = checkStatus ProbeOutcome.rejected prev ∧
      display (checkStatus ProbeOutcome.nullish prev)
        = { server := "Offline", agent := "Not Ready", documents := prev.documentsLoaded } ∧
      (checkStatus ProbeOutcome.nullish prev).pdfsDirectory = prev.pdfsDirectory := by
  refine ⟨rfl, rfl, rfl, rfl, ?_, rfl, rfl, rfl⟩
  have h1 : display (checkStatus
      (ProbeOutcome.resolved { StatusResult.empty with pdfs_directory := pdfs }) prev)
      = { server := "Offline", agent := "Not Ready", documents := JSVal.num 0 } := rfl
  have h2 : display (checkStatus ProbeOutcome.rejected prev)
      = { server := "Offline", agent := "Not Ready", documents := prev.documentsLoaded } := rfl
  rw [h1, h2]
  constructor
  · intro h
    exact (congrArg Display.documents h).symm
  · intro h
    rw [h]

/-- C8, as the code has it: two probes are started; the later one (ready, 5 documents)
settles first and the earlier one (not ready, 3 documents) settles after it. The final
snapshot is the earlier probe's result, not the later probe's. -/
theorem poller_stale_result_overwrites :
    (Poller.initial.run
        [PollEvent.start, PollEvent.start,
          PollEvent.settle 1 (ProbeOutcome.resolved
            { status := JSVal.str "running", rag_agent_ready := JSVal.bool true,
              documents_loaded := JSVal.num 5, pdfs_directory := JSVal.undefined }),
          PollEvent.settle 0 (ProbeOutcome.resolved
            { status := JSVal.str "running", rag_agent_ready := JSVal.bool false,
              documents_loaded := JSVal.num 3, pdfs_directory := JSVal.undefined })]).status
        = { serverStatus := "Online", ragAgentStatus := JSVal.bool false,
            documentsLoaded := JSVal.num 3, pdfsDirectory := JSVal.str "" } ∧
      (Poller.initial.run
        [PollEvent.start, PollEvent.start,
          PollEvent.settle 1 (ProbeOutcome.resolved
            { status := JSVal.str "running", rag_agent_ready := JSVal.bool true,
              documents_loaded := JSVal.num 5, pdfs_directory := JSVal.undefined }),
          PollEvent.settle 0 (ProbeOutcome.resolved
            { status := JSVal.str "running", rag_agent_ready := JSVal.bool false,
              documents_loaded := JSVal.num 3, pdfs_directory := JSVal.undefined })]).status
        ≠ tryBranch
            { status := JSVal.str "running", rag_agent_ready := JSVal.bool true,
              documents_loaded := JSVal.num 5, pdfs_directory := JSVal.undefined } := by
  decide

/-- C8, amended: results are applied in the order the probes settle, whichever was started
first. When a later-started probe settles before an earlier-started one, the snapshot
after both is the earlier-started probe's result applied over the later one: its success
snapshot when it resolved with a readable value, and the later probe's snapshot turned
`Offline` and not ready when it failed. Nothing is discarded. -/
theorem poller_last_settled_wins (p : Poller) (early late : Nat)
    (earlier later : ProbeOutcome) (result : StatusResult) :
    (p.run [PollEvent.settle late later, PollEvent.settle early earlier]).status
        = checkStatus earlier (checkStatus later p.status) ∧
      (p.run [PollEvent.settle late later,
          PollEvent.settle early (ProbeOutcome.resolved result)]).status
        = tryBranch result ∧
      (p.run [PollEvent.settle late later,
          PollEvent.settle early ProbeOutcome.rejected]).status
        = catchBranch (checkStatus later p.status) ∧
      (p.run [PollEvent.settle late later, PollEvent.settle early earlier]).started
        = p.started :=
  ⟨rfl, rfl, rfl, rfl⟩

end Header
